import Mathlib

/-!
Verification of the session/room broadcast core of a small multi-room chat
service written in Rust (actix-web). The shallow embedding below translates
the shared state and its operations from src/src/main.rs:

  - room ids (Uuid) and actor addresses (Addr of ClientSession) are modelled
    as Nat identities;
  - HashMap becomes an association list with first-match lookup and
    replace-on-insert semantics;
  - HashSet of String becomes a duplicate-free list with insert-if-absent;
  - each handler is a pure function from inputs and pre-state to post-state
    plus an ordered trace of the externally visible actions it performs
    (actor do_send calls, history pushes, ctx.text writes to the own
    connection).
-/

set_option autoImplicit false

namespace Chat

/-- ChatMessage from main.rs lines 50-56: room id, sender username, content. -/
structure ChatMessage where
  room_id : Nat
  sender : String
  content : String
deriving DecidableEq, Repr

/-- ChatRoom from main.rs lines 10-17. participants models HashSet of String
as a list without duplicates; message_log models Vec of ChatMessage. -/
structure ChatRoom where
  id : Nat
  name : String
  created_by : String
  participants : List String
  message_log : List ChatMessage
deriving DecidableEq, Repr

/-- First-match lookup in an association list; models HashMap::get. -/
def mapLookup {α : Type} (m : List (Nat × α)) (k : Nat) : Option α :=
  (m.find? (fun p => p.1 == k)).map (fun p => p.2)

/-- Replace-on-insert for an association list; models HashMap::insert
(the map is unordered, so placing the fresh binding first is immaterial). -/
def mapInsert {α : Type} (m : List (Nat × α)) (k : Nat) (v : α) : List (Nat × α) :=
  (k, v) :: m.filter (fun p => p.1 != k)

/-- HashSet::insert on a set of strings: a no-op when the element is present. -/
def hsInsert (s : List String) (x : String) : List String :=
  if x ∈ s then s else s ++ [x]

/-- SharedState from main.rs lines 19-24: user accounts, chat rooms keyed by
room id, and the active session handles per room id. -/
structure SharedState where
  user_accounts : List (String × String)
  chat_rooms : List (Nat × ChatRoom)
  active_sessions : List (Nat × List Nat)
deriving DecidableEq, Repr

/-- ClientSession from main.rs lines 58-63: the actor address (handle) is an
identity; room_id and username are fixed at connect time. -/
structure ClientSession where
  handle : Nat
  room_id : Nat
  username : String
deriving DecidableEq, Repr

/-- Result of the add-participant endpoint: Ok with the updated room
snapshot, or NotFound. -/
inductive AddResult where
  | ok (room : ChatRoom)
  | notFound
deriving DecidableEq, Repr

/-- create_chat_room from main.rs lines 180-194. Uuid::new_v4 is external
randomness, so the fresh id is a parameter; the handler builds the room with
empty participants and empty log, stores it, and returns a copy. -/
def create_chat_room (newId : Nat) (name creator : String) (st : SharedState) :
    ChatRoom × SharedState :=
  let room : ChatRoom :=
    { id := newId, name := name, created_by := creator
      participants := [], message_log := [] }
  (room, { st with chat_rooms := mapInsert st.chat_rooms room.id room })

/-- add_participant from main.rs lines 196-206: on a known room id, insert
the username into the participant set and return the updated snapshot;
otherwise NotFound with no mutation. -/
def add_participant (rid : Nat) (username : String) (st : SharedState) :
    AddResult × SharedState :=
  match mapLookup st.chat_rooms rid with
  | some room =>
      let room2 := { room with participants := hsInsert room.participants username }
      (AddResult.ok room2, { st with chat_rooms := mapInsert st.chat_rooms rid room2 })
  | none => (AddResult.notFound, st)

/-- list_chat_rooms from main.rs lines 208-212: the values of the rooms map. -/
def list_chat_rooms (st : SharedState) : List ChatRoom :=
  st.chat_rooms.map (fun p => p.2)

/-- Actor::started from main.rs lines 68-74: push the own address onto the
room entry of active_sessions, creating the entry when absent. -/
def started (sess : ClientSession) (st : SharedState) : SharedState :=
  let cur := (mapLookup st.active_sessions sess.room_id).getD []
  { st with active_sessions :=
      mapInsert st.active_sessions sess.room_id (cur ++ [sess.handle]) }

/-- Actor::stopped from main.rs lines 76-81: when the room has an entry,
retain only the addresses different from the own address. -/
def stopped (sess : ClientSession) (st : SharedState) : SharedState :=
  match mapLookup st.active_sessions sess.room_id with
  | some user_list =>
      let retained := user_list.filter (fun addr => addr != sess.handle)
      { st with active_sessions := mapInsert st.active_sessions sess.room_id retained }
  | none => st

/-- Handler of ChatMessage from main.rs lines 84-92: the list of texts the
session writes to its own connection on receiving a dispatched message —
the content when the room ids match, nothing otherwise. -/
def handleChatMessage (sess : ClientSession) (msg : ChatMessage) : List String :=
  if msg.room_id = sess.room_id then [msg.content] else []

/-- Inbound websocket frames: the Ok variants of ws::Message, plus a
protocol error (the Err case of the stream item). -/
inductive WsFrame where
  | text (t : String)
  | binary
  | ping
  | pong
  | close
  | continuation
  | nop
  | protocolError
deriving DecidableEq, Repr

/-- Whether a frame is the text variant. -/
def WsFrame.isText : WsFrame → Bool
  | .text _ => true
  | _ => false

/-- Externally visible actions of the stream handler, in program order:
a do_send of a message to an actor address, a push onto a room history,
and a ctx.text reply written to the handling session's own connection. -/
inductive Event where
  | deliver (handle : Nat) (msg : ChatMessage)
  | appendHist (rid : Nat) (msg : ChatMessage)
  | reply (text : String)
deriving DecidableEq, Repr

/-- The history-save step of the stream handler, main.rs lines 112-116:
push the message onto the room log when the room id is known, silently do
nothing otherwise. -/
def append_message (rid : Nat) (msg : ChatMessage) (rooms : List (Nat × ChatRoom)) :
    List (Nat × ChatRoom) :=
  match mapLookup rooms rid with
  | some room =>
      mapInsert rooms rid { room with message_log := room.message_log ++ [msg] }
  | none => rooms

/-- Post-state and action trace of one stream-handler invocation. -/
structure StreamResult where
  state : SharedState
  events : List Event
deriving DecidableEq, Repr

/-- StreamHandler::handle from main.rs lines 94-122. A text frame: look up
the room entry of active_sessions; when present, build the message, do_send
it to every address in the entry, then push it onto the room history when
the room exists; when the room has no session entry nothing happens. Any
other frame (and a protocol error): reply a diagnostic to the own
connection. -/
def streamHandle (sess : ClientSession) (frame : WsFrame) (st : SharedState) :
    StreamResult :=
  match frame with
  | .text t =>
      match mapLookup st.active_sessions sess.room_id with
      | some users =>
          let new_message : ChatMessage :=
            { room_id := sess.room_id, sender := sess.username, content := t }
          { state := { st with
              chat_rooms := append_message sess.room_id new_message st.chat_rooms }
            events := users.map (fun u => Event.deliver u new_message) ++
              (match mapLookup st.chat_rooms sess.room_id with
               | some _ => [Event.appendHist sess.room_id new_message]
               | none => []) }
      | none => { state := st, events := [] }
  | _ => { state := st, events := [Event.reply "Received non-text message."] }

/-- Outcome of the websocket entry point: a BadRequest rejection, or a
started session. -/
inductive WsStart where
  | badRequest (reason : String)
  | connected (sess : ClientSession)
deriving DecidableEq, Repr

/-- First binding of a key in a parsed query string. -/
def lookupParam (q : List (String × String)) (k : String) : Option String :=
  (q.find? (fun p => p.1 == k)).map (fun p => p.2)

/-- ws_handler from main.rs lines 125-152. The query-string decoding and
Uuid::parse_str are external library calls: the decoded query arrives as
an Option (none models a decode failure) and the id parse arrives as the
function parameter parse. An undecodable query and a missing or unparseable
roomId are rejected with BadRequest before any session exists; a missing
username defaults to "guest"; otherwise the session is built and its actor
is started, which attaches it to the session registry. -/
def ws_handler (parse : String → Option Nat) (query : Option (List (String × String)))
    (st : SharedState) (newHandle : Nat) : WsStart × SharedState :=
  match query with
  | none => (WsStart.badRequest "Invalid query", st)
  | some q =>
      match (lookupParam q "roomId").bind parse with
      | none => (WsStart.badRequest "Invalid roomId", st)
      | some rid =>
          let username := (lookupParam q "username").getD "guest"
          let sess : ClientSession :=
            { handle := newHandle, room_id := rid, username := username }
          (WsStart.connected sess, started sess st)

/-! ### Association-list lemmas -/

theorem mapLookup_mapInsert_self {α : Type} (m : List (Nat × α)) (k : Nat) (v : α) :
    mapLookup (mapInsert m k v) k = some v := by
  simp [mapLookup, mapInsert, List.find?]

theorem find?_filter_other_key {α : Type} (m : List (Nat × α)) (k k2 : Nat)
    (h : k2 ≠ k) :
    List.find? (fun p => p.1 == k2) (m.filter (fun p => p.1 != k))
      = List.find? (fun p => p.1 == k2) m := by
  induction m with
  | nil => rfl
  | cons p rest ih =>
      by_cases hp : p.1 = k
      · rw [List.filter_cons_of_neg (by simp [hp]),
          List.find?_cons_of_neg _ (by simp [hp, Ne.symm h]), ih]
      · rw [List.filter_cons_of_pos (by simp [hp])]
        by_cases hp2 : p.1 = k2
        · rw [List.find?_cons_of_pos _ (by simp [hp2]),
            List.find?_cons_of_pos _ (by simp [hp2])]
        · rw [List.find?_cons_of_neg _ (by simp [hp2]),
            List.find?_cons_of_neg _ (by simp [hp2]), ih]

theorem mapLookup_mapInsert_ne {α : Type} (m : List (Nat × α)) (k k2 : Nat) (v : α)
    (h : k2 ≠ k) : mapLookup (mapInsert m k v) k2 = mapLookup m k2 := by
  simp only [mapLookup, mapInsert]
  rw [List.find?_cons_of_neg _ (by simp [Ne.symm h]),
    find?_filter_other_key m k k2 h]

theorem mapInsert_mapInsert {α : Type} (m : List (Nat × α)) (k : Nat) (v w : α) :
    mapInsert (mapInsert m k v) k w = mapInsert m k w := by
  simp [mapInsert, List.filter_cons, List.filter_filter]

theorem hsInsert_mem (s : List String) (x : String) : x ∈ hsInsert s x := by
  by_cases h : x ∈ s <;> simp [hsInsert, h]

theorem hsInsert_idem (s : List String) (x : String) :
    hsInsert (hsInsert s x) x = hsInsert s x := by
  show (if x ∈ hsInsert s x then hsInsert s x else hsInsert s x ++ [x]) = hsInsert s x
  exact if_pos (hsInsert_mem s x)

/-! ### C2: room creation -/

/-- C2: for every fresh id, name and creator, create_chat_room returns a
room carrying exactly the supplied name and creator, an empty participant
set and an empty history, stores it under its id, and a subsequent
list_chat_rooms includes it. -/
theorem create_chat_room_spec (newId : Nat) (name creator : String) (st : SharedState) :
    ((create_chat_room newId name creator st).1.id = newId) ∧
    ((create_chat_room newId name creator st).1.name = name) ∧
    ((create_chat_room newId name creator st).1.created_by = creator) ∧
    ((create_chat_room newId name creator st).1.participants = []) ∧
    ((create_chat_room newId name creator st).1.message_log = []) ∧
    (mapLookup (create_chat_room newId name creator st).2.chat_rooms newId
      = some (create_chat_room newId name creator st).1) ∧
    ((create_chat_room newId name creator st).1
      ∈ list_chat_rooms (create_chat_room newId name creator st).2) := by
  refine ⟨rfl, rfl, rfl, rfl, rfl, ?_, ?_⟩
  · exact mapLookup_mapInsert_self _ _ _
  · simp [create_chat_room, list_chat_rooms, mapInsert]

/-! ### C4: add_participant on an unknown room -/

/-- C4: when the room id is not in the rooms map, add_participant returns
NotFound and the whole shared state is returned unchanged. -/
theorem add_participant_notFound (rid : Nat) (username : String) (st : SharedState)
    (h : mapLookup st.chat_rooms rid = none) :
    add_participant rid username st = (AddResult.notFound, st) := by
  simp [add_participant, h]

/-- Witness for C4 at a concrete state holding one room under id 1. -/
theorem add_participant_notFound_witness :
    add_participant 2 "alice"
      { user_accounts := []
        chat_rooms := [(1, { id := 1, name := "general", created_by := "alice"
                             participants := [], message_log := [] })]
        active_sessions := [] }
      = (AddResult.notFound,
         { user_accounts := []
           chat_rooms := [(1, { id := 1, name := "general", created_by := "alice"
                                participants := [], message_log := [] })]
           active_sessions := [] }) :=
  add_participant_notFound 2 "alice" _ (by decide)

/-! ### Concrete fixtures used by witnesses -/

/-- A concrete room used by the witnesses. -/
def roomG : ChatRoom :=
  { id := 1, name := "general", created_by := "alice"
    participants := [], message_log := [] }

/-- A concrete state: one room (id 1) and two attached session handles. -/
def stG : SharedState :=
  { user_accounts := []
    chat_rooms := [(1, roomG)]
    active_sessions := [(1, [10, 20])] }

/-- A concrete attached session (handle 20, room 1). -/
def sessBob : ClientSession := { handle := 20, room_id := 1, username := "bob" }

/-! ### C3: add_participant is idempotent -/

/-- C3: on an existing room, running add_participant twice with the same
room id and username returns the same snapshot and the same post-state as
running it once — inserting a present member is a no-op on the set. -/
theorem add_participant_idem (rid : Nat) (username : String) (st : SharedState)
    (room : ChatRoom) (h : mapLookup st.chat_rooms rid = some room) :
    add_participant rid username (add_participant rid username st).2
      = add_participant rid username st := by
  simp [add_participant, h, mapLookup_mapInsert_self, hsInsert_idem, mapInsert_mapInsert]

/-- Witness for C3: adding "bob" to room 1 of the concrete state twice
equals adding once. -/
theorem add_participant_idem_witness :
    add_participant 1 "bob" (add_participant 1 "bob" stG).2
      = add_participant 1 "bob" stG :=
  add_participant_idem 1 "bob" stG roomG (by decide)

/-! ### C5: history append on unknown versus known room -/

/-- C5: appending a message for a never-created room id leaves the rooms
map exactly as it was (a silent no-op), while appending for an existing
room id extends that room log by the message at the end and leaves every
other key unchanged. -/
theorem append_message_spec (rid : Nat) (msg : ChatMessage)
    (rooms : List (Nat × ChatRoom)) :
    (mapLookup rooms rid = none → append_message rid msg rooms = rooms) ∧
    (∀ room, mapLookup rooms rid = some room →
      mapLookup (append_message rid msg rooms) rid
        = some { room with message_log := room.message_log ++ [msg] } ∧
      ∀ r2, r2 ≠ rid → mapLookup (append_message rid msg rooms) r2
        = mapLookup rooms r2) := by
  constructor
  · intro h
    simp [append_message, h]
  · intro room h
    constructor
    · simp [append_message, h, mapLookup_mapInsert_self]
    · intro r2 hne
      simp [append_message, h, mapLookup_mapInsert_ne _ _ _ _ hne]

/-- Witness for C5: at the concrete rooms map, appending for the unknown
id 2 is a no-op and appending for the known id 1 extends the log. -/
theorem append_message_spec_witness :
    (append_message 2 { room_id := 2, sender := "bob", content := "hi" } stG.chat_rooms
      = stG.chat_rooms) ∧
    (mapLookup
        (append_message 1 { room_id := 1, sender := "bob", content := "hi" } stG.chat_rooms) 1
      = some { roomG with message_log :=
          [{ room_id := 1, sender := "bob", content := "hi" }] }) :=
  ⟨(append_message_spec 2 _ stG.chat_rooms).1 (by decide),
   ((append_message_spec 1 _ stG.chat_rooms).2 roomG (by decide)).1⟩

/-! ### C7: non-text frames -/

/-- C7: any non-text frame (binary, ping, pong, close, continuation, nop,
or a protocol error) produces exactly one diagnostic reply on the handling
session's own connection and nothing else: the shared state is returned
untouched — no broadcast, no history write, and the session stays in the
registry. -/
theorem nontext_frame_spec (sess : ClientSession) (frame : WsFrame)
    (st : SharedState) (h : frame.isText = false) :
    streamHandle sess frame st
      = { state := st, events := [Event.reply "Received non-text message."] } := by
  cases frame <;> first | rfl | simp [WsFrame.isText] at h

/-- Witness for C7: a binary frame at the concrete state. -/
theorem nontext_frame_spec_witness :
    streamHandle sessBob WsFrame.binary stG
      = { state := stG, events := [Event.reply "Received non-text message."] } :=
  nontext_frame_spec sessBob WsFrame.binary stG rfl

/-! ### C10: dispatched-message handling at a session -/

/-- C10: a session receiving a dispatched ChatMessage writes exactly the
message content to its connection when the message room id equals its own
bound room id, and writes nothing at all otherwise — the content appears in
the written output if and only if the room ids match. -/
theorem handleChatMessage_spec (sess : ClientSession) (msg : ChatMessage) :
    (msg.room_id = sess.room_id → handleChatMessage sess msg = [msg.content]) ∧
    (msg.room_id ≠ sess.room_id → handleChatMessage sess msg = []) ∧
    (msg.content ∈ handleChatMessage sess msg ↔ msg.room_id = sess.room_id) := by
  by_cases h : msg.room_id = sess.room_id <;> simp [handleChatMessage, h]

/-- Witness for C10: the concrete session delivers a matching-room message
and drops a mismatched-room message. -/
theorem handleChatMessage_spec_witness :
    (handleChatMessage sessBob { room_id := 1, sender := "alice", content := "hi" }
      = ["hi"]) ∧
    (handleChatMessage sessBob { room_id := 2, sender := "alice", content := "hi" }
      = []) :=
  ⟨(handleChatMessage_spec sessBob _).1 (by decide),
   (handleChatMessage_spec sessBob _).2.1 (by decide)⟩

/-! ### C1: broadcast of an inbound text frame -/

/-- C1: when a session with a registered room (room record present, session
entry holding the duplicate-free snapshot users) receives an inbound text
frame, the room history gains exactly one entry — the message built from
the room id, the sending session username and the frame payload — every
handle of the snapshot (the sender included) is sent exactly one delivery
of that message, all deliveries precede the history append in the action
trace, and any session bound to that room writes exactly the payload on
receiving the delivery. -/
theorem broadcast_spec (sess : ClientSession) (payload : String) (st : SharedState)
    (users : List Nat) (room : ChatRoom)
    (husers : mapLookup st.active_sessions sess.room_id = some users)
    (hroom : mapLookup st.chat_rooms sess.room_id = some room)
    (hnodup : users.Nodup) :
    mapLookup (streamHandle sess (WsFrame.text payload) st).state.chat_rooms sess.room_id
      = some { room with message_log := room.message_log
          ++ [{ room_id := sess.room_id, sender := sess.username, content := payload }] } ∧
    (streamHandle sess (WsFrame.text payload) st).events
      = users.map (fun u => Event.deliver u
            { room_id := sess.room_id, sender := sess.username, content := payload })
        ++ [Event.appendHist sess.room_id
            { room_id := sess.room_id, sender := sess.username, content := payload }] ∧
    (∀ u ∈ users,
      (streamHandle sess (WsFrame.text payload) st).events.count
        (Event.deliver u
          { room_id := sess.room_id, sender := sess.username, content := payload }) = 1) ∧
    (∀ recv : ClientSession, recv.room_id = sess.room_id →
      handleChatMessage recv
        { room_id := sess.room_id, sender := sess.username, content := payload }
        = [payload]) := by
  have hev : (streamHandle sess (WsFrame.text payload) st).events
      = users.map (fun u => Event.deliver u
            { room_id := sess.room_id, sender := sess.username, content := payload })
        ++ [Event.appendHist sess.room_id
            { room_id := sess.room_id, sender := sess.username, content := payload }] := by
    simp [streamHandle, husers, hroom]
  refine ⟨?_, hev, ?_, ?_⟩
  · simp [streamHandle, husers, append_message, hroom, mapLookup_mapInsert_self]
  · intro u hu
    rw [hev, List.count_append]
    have hinj : Function.Injective (fun u => Event.deliver u
        { room_id := sess.room_id, sender := sess.username, content := payload }) := by
      intro a b hab
      simpa using hab
    rw [List.count_map_of_injective users _ hinj u,
      List.count_eq_one_of_mem hnodup hu]
    simp
  · intro recv hrecv
    simp [handleChatMessage, hrecv]

/-- Witness for C1: at the concrete two-session state, "hi" from bob is
delivered to both handles (bob included) before the history append, and the
room log gains that single entry. -/
theorem broadcast_spec_witness :
    mapLookup (streamHandle sessBob (WsFrame.text "hi") stG).state.chat_rooms 1
      = some { id := 1, name := "general", created_by := "alice", participants := []
               message_log := [{ room_id := 1, sender := "bob", content := "hi" }] } ∧
    (streamHandle sessBob (WsFrame.text "hi") stG).events
      = [Event.deliver 10 { room_id := 1, sender := "bob", content := "hi" },
         Event.deliver 20 { room_id := 1, sender := "bob", content := "hi" },
         Event.appendHist 1 { room_id := 1, sender := "bob", content := "hi" }] :=
  ⟨(broadcast_spec sessBob "hi" stG [10, 20] roomG rfl rfl (by decide)).1,
   (broadcast_spec sessBob "hi" stG [10, 20] roomG rfl rfl (by decide)).2.1⟩

/-! ### C6: detaching a session -/

/-- C6: after a session stops, the session-registry entry of its room no
longer contains its handle, stopping again is a no-op on the state
(idempotent double-close), and no text frame broadcast afterwards in that
room produces any delivery to the detached handle. -/
theorem detach_spec (sess : ClientSession) (st : SharedState) :
    sess.handle ∉ (mapLookup (stopped sess st).active_sessions sess.room_id).getD [] ∧
    stopped sess (stopped sess st) = stopped sess st ∧
    (∀ sender : ClientSession, sender.room_id = sess.room_id →
      ∀ payload : String, ∀ m : ChatMessage,
        Event.deliver sess.handle m
          ∉ (streamHandle sender (WsFrame.text payload) (stopped sess st)).events) := by
  cases hs : mapLookup st.active_sessions sess.room_id with
  | none =>
      have hid : stopped sess st = st := by
        simp [stopped, hs]
      refine ⟨?_, ?_, ?_⟩
      · rw [hid, hs]
        simp
      · rw [hid, hid]
      · intro sender hsr payload m
        rw [hid]
        simp [streamHandle, hsr, hs]
  | some user_list =>
      have hpost : mapLookup (stopped sess st).active_sessions sess.room_id
          = some (user_list.filter (fun addr => addr != sess.handle)) := by
        simp [stopped, hs, mapLookup_mapInsert_self]
      refine ⟨?_, ?_, ?_⟩
      · rw [hpost]
        simp
      · simp [stopped, hs, hpost, mapLookup_mapInsert_self, mapInsert_mapInsert,
          List.filter_filter]
      · intro sender hsr payload m
        cases hr : mapLookup (stopped sess st).chat_rooms sess.room_id with
        | none =>
            simp [streamHandle, hsr, hpost, hr]
            exact fun x hx hne heq => absurd heq hne
        | some r0 =>
            simp [streamHandle, hsr, hpost, hr]
            exact fun x hx hne heq => absurd heq hne

/-- Witness for C6: bob (handle 20) detaches from the concrete state; the
room-1 entry no longer holds 20, and a later broadcast from alice yields no
delivery to 20. -/
theorem detach_spec_witness :
    (sessBob.handle
      ∉ (mapLookup (stopped sessBob stG).active_sessions sessBob.room_id).getD []) ∧
    (Event.deliver 20 { room_id := 1, sender := "alice", content := "yo" }
      ∉ (streamHandle { handle := 10, room_id := 1, username := "alice" }
          (WsFrame.text "yo") (stopped sessBob stG)).events) :=
  ⟨(detach_spec sessBob stG).1,
   (detach_spec sessBob stG).2.2 { handle := 10, room_id := 1, username := "alice" }
     rfl "yo" { room_id := 1, sender := "alice", content := "yo" }⟩

/-! ### C8: websocket entry point -/

/-- C8: an undecodable query string, and a query whose roomId is missing or
fails the id parse, are rejected with BadRequest and the shared state (the
session registry included) is returned unchanged, no session having been
built; a query with a valid roomId and no username builds the session with
the placeholder username "guest" and starts it, attaching it. -/
theorem ws_handler_spec (parse : String → Option Nat) (st : SharedState)
    (newHandle : Nat) :
    (ws_handler parse none st newHandle = (WsStart.badRequest "Invalid query", st)) ∧
    (∀ q : List (String × String), (lookupParam q "roomId").bind parse = none →
      ws_handler parse (some q) st newHandle
        = (WsStart.badRequest "Invalid roomId", st)) ∧
    (∀ q : List (String × String), ∀ rid : Nat,
      (lookupParam q "roomId").bind parse = some rid →
      lookupParam q "username" = none →
      ws_handler parse (some q) st newHandle
        = (WsStart.connected { handle := newHandle, room_id := rid, username := "guest" },
           started { handle := newHandle, room_id := rid, username := "guest" } st)) := by
  refine ⟨rfl, ?_, ?_⟩
  · intro q h
    simp [ws_handler, h]
  · intro q rid h hu
    simp [ws_handler, h, hu]

/-- A concrete stand-in for the external id parse, recognising only "1". -/
def parseOne (s : String) : Option Nat :=
  if s = "1" then some 1 else none

/-- Witness for C8: under the concrete parse, roomId "zzz" is rejected with
the state unchanged, and roomId "1" with no username starts a session named
"guest". -/
theorem ws_handler_spec_witness :
    (ws_handler parseOne (some [("roomId", "zzz")]) stG 30
      = (WsStart.badRequest "Invalid roomId", stG)) ∧
    (ws_handler parseOne (some [("roomId", "1")]) stG 30
      = (WsStart.connected { handle := 30, room_id := 1, username := "guest" },
         started { handle := 30, room_id := 1, username := "guest" } stG)) :=
  ⟨(ws_handler_spec parseOne stG 30).2.1 [("roomId", "zzz")] (by decide),
   (ws_handler_spec parseOne stG 30).2.2 [("roomId", "1")] 1
     (by decide) (by decide)⟩

/-! ### C9: id immutability and append-only history -/

/-- The rooms map post extends the rooms map pre: every room present in pre
is still present under the same key, with the same id field, and with a
message log equal to the old one followed by some (possibly empty) tail. -/
def HistoryExtends (pre post : List (Nat × ChatRoom)) : Prop :=
  ∀ rid room, mapLookup pre rid = some room →
    ∃ room2 tail, mapLookup post rid = some room2 ∧
      room2.id = room.id ∧ room2.message_log = room.message_log ++ tail

theorem historyExtends_refl (m : List (Nat × ChatRoom)) : HistoryExtends m m :=
  fun _ room h => ⟨room, [], h, rfl, by simp⟩

theorem historyExtends_mapInsert (m : List (Nat × ChatRoom)) (k : Nat)
    (old upd : ChatRoom) (tail : List ChatMessage)
    (hold : mapLookup m k = some old) (hid : upd.id = old.id)
    (hlog : upd.message_log = old.message_log ++ tail) :
    HistoryExtends m (mapInsert m k upd) := by
  intro rid room h
  by_cases hk : rid = k
  · subst hk
    rw [hold] at h
    cases h
    exact ⟨upd, tail, mapLookup_mapInsert_self m rid upd, hid, hlog⟩
  · exact ⟨room, [], by rw [mapLookup_mapInsert_ne m k rid upd hk]; exact h, rfl, by simp⟩

theorem append_message_extends (rid : Nat) (msg : ChatMessage)
    (rooms : List (Nat × ChatRoom)) :
    HistoryExtends rooms (append_message rid msg rooms) := by
  cases h : mapLookup rooms rid with
  | none =>
      rw [append_message, h]
      exact historyExtends_refl rooms
  | some room =>
      rw [append_message, h]
      exact historyExtends_mapInsert rooms rid room _ [msg] h rfl rfl

/-- C9: every core operation preserves the id of every stored room and
only ever extends a stored room log at its end: room creation under a fresh
id, add_participant, the history-save step, the whole stream handler on any
frame, and session attach and detach. -/
theorem core_ops_preserve_history :
    (∀ newId : Nat, ∀ name creator : String, ∀ st : SharedState,
      mapLookup st.chat_rooms newId = none →
      HistoryExtends st.chat_rooms (create_chat_room newId name creator st).2.chat_rooms) ∧
    (∀ rid : Nat, ∀ username : String, ∀ st : SharedState,
      HistoryExtends st.chat_rooms (add_participant rid username st).2.chat_rooms) ∧
    (∀ rid : Nat, ∀ msg : ChatMessage, ∀ rooms : List (Nat × ChatRoom),
      HistoryExtends rooms (append_message rid msg rooms)) ∧
    (∀ sess : ClientSession, ∀ frame : WsFrame, ∀ st : SharedState,
      HistoryExtends st.chat_rooms (streamHandle sess frame st).state.chat_rooms) ∧
    (∀ sess : ClientSession, ∀ st : SharedState,
      HistoryExtends st.chat_rooms (started sess st).chat_rooms) ∧
    (∀ sess : ClientSession, ∀ st : SharedState,
      HistoryExtends st.chat_rooms (stopped sess st).chat_rooms) := by
  refine ⟨?_, ?_, ?_, ?_, ?_, ?_⟩
  · intro newId name creator st hfresh rid room h
    have hk : rid ≠ newId := by
      intro e
      rw [e, hfresh] at h
      cases h
    refine ⟨room, [], ?_, rfl, by simp⟩
    rw [create_chat_room]
    rw [mapLookup_mapInsert_ne st.chat_rooms newId rid _ hk]
    exact h
  · intro rid username st
    cases h : mapLookup st.chat_rooms rid with
    | none =>
        rw [add_participant, h]
        exact historyExtends_refl st.chat_rooms
    | some room =>
        rw [add_participant, h]
        exact historyExtends_mapInsert st.chat_rooms rid room _ [] h rfl (by simp)
  · exact append_message_extends
  · intro sess frame st
    cases frame with
    | text t =>
        cases hu : mapLookup st.active_sessions sess.room_id with
        | none =>
            rw [streamHandle, hu]
            exact historyExtends_refl st.chat_rooms
        | some users =>
            rw [streamHandle, hu]
            exact append_message_extends sess.room_id _ st.chat_rooms
    | binary => exact historyExtends_refl st.chat_rooms
    | ping => exact historyExtends_refl st.chat_rooms
    | pong => exact historyExtends_refl st.chat_rooms
    | close => exact historyExtends_refl st.chat_rooms
    | continuation => exact historyExtends_refl st.chat_rooms
    | nop => exact historyExtends_refl st.chat_rooms
    | protocolError => exact historyExtends_refl st.chat_rooms
  · intro sess st
    exact historyExtends_refl st.chat_rooms
  · intro sess st
    cases h : mapLookup st.active_sessions sess.room_id with
    | none =>
        rw [stopped, h]
        exact historyExtends_refl st.chat_rooms
    | some user_list =>
        rw [stopped, h]
        exact historyExtends_refl st.chat_rooms

/-- Witness for C9: creating a room under the fresh id 2 extends the
concrete rooms map. -/
theorem core_ops_preserve_history_witness :
    HistoryExtends stG.chat_rooms (create_chat_room 2 "random" "carol" stG).2.chat_rooms :=
  core_ops_preserve_history.1 2 "random" "carol" stG (by decide)

end Chat
